import Mathlib

/-!
Shallow embedding of the boids simulator core.

Source files:
* `src/1.boids.sim/2.my.version/1.rebound.poor.areas.cpp` — the extended
  variant: `update_boids_cpp` (separation / alignment / cohesion, predator
  avoidance, per-zone hazard-area avoidance, weighted composition, speed
  limiting, stochastic perturbation, clamping rebound) and
  `update_predators_cpp` (nearest-boid pursuit).
* `src/1.boids.sim/1.ai.base.codes/2c.mistral.rebound.cpp` — the simple
  variant: `update_boids` (separation / alignment / cohesion, component
  clamping to `max_force`, speed limiting, damped rebound with factor 0.9).

Modelling conventions:
* C `double` is modelled as `ℚ` (exact arithmetic; the claims under study are
  structural — guards, ordering, bounds — not about rounding).
* C `sqrt` is an external math-library call; it is modelled as an explicit
  function parameter `sq : ℚ → ℚ` threaded through every definition.
  Theorems that need `sq` to behave like a square root hypothesise exactly
  the properties used, at exactly the arguments where they are used.
* The `rand()`-based perturbation draws of the extended variant are modelled
  as an explicit input `pert : ℕ → ℚ × ℚ`, giving for boid `i` the pair of
  already-scaled offsets `(rand()/RAND_MAX - 0.5) * 0.1` added to `vx[i]`
  and `vy[i]`.
* Rcpp `NumericVector x = boids["x"]` extracts a column of the caller's
  DataFrame *by reference*: element writes such as `vx[i] += ...` mutate the
  caller's array in place.  The extended variant's boid loop is therefore
  embedded as a state-threading fold over the very arrays that were passed
  in, and the state visible to the caller after the call is the final
  threaded state.  The simple variant writes only to the freshly allocated
  `new_x, new_y, new_vx, new_vy` buffers; its embedding threads the caller's
  columns (`curr`) alongside the output buffers (`buf`) so that the
  unchanged-inputs property is a provable statement rather than a convention.
* Out-of-range reads (`area_radius[k]` with `k` past the end — undefined
  behaviour in C++) are modelled by `Array.getD _ _ 0`; a separate
  definition records when such a read occurs.
-/

/-- A struct-of-arrays agent collection: the four columns `x`, `y`, `vx`,
`vy` extracted from a boid or predator DataFrame. -/
structure Agents where
  x : Array ℚ
  y : Array ℚ
  vx : Array ℚ
  vy : Array ℚ
  deriving Repr, DecidableEq

/-- A position-only collection: the `x`, `y` columns extracted from the
predator DataFrame inside `update_boids_cpp`, from the areas DataFrame, or
from the boids DataFrame inside `update_predators_cpp`. -/
structure Positions where
  x : Array ℚ
  y : Array ℚ
  deriving Repr, DecidableEq

/-- Runs the loop body on indices `0, 1, ..., n-1` in order, threading the
state: the embedding of `for (int i = 0; i < n; i++)`. -/
def iterUp (f : ℕ → α → α) : ℕ → α → α
  | 0, s => s
  | n + 1, s => f n (iterUp f n s)

/-! ## Extended variant: `update_boids_cpp`
(src/1.boids.sim/2.my.version/1.rebound.poor.areas.cpp, lines 13-231) -/

/-- The `limit` lambda (lines 55-62): clamp the magnitude of a 2-D vector to
`max_speed`, preserving direction.  `pow(v, 2)` is written `v * v`.  The
inline speed-limiting blocks (lines 197-201, 102-106 of the simple variant
and 286-290 of the predator update) perform this same computation, with the
predator version using `max_speed * pred_rel_speed` as the bound. -/
def limit (sq : ℚ → ℚ) (max_speed : ℚ) (v : ℚ × ℚ) : ℚ × ℚ :=
  let mag := sq (v.1 * v.1 + v.2 * v.2)
  if mag > max_speed then (v.1 / mag * max_speed, v.2 / mag * max_speed) else v

/-- Accumulators of the neighbor scan of `update_boids_cpp` (lines 67-69). -/
structure ScanAcc where
  sep : ℚ × ℚ
  ali : ℚ × ℚ
  coh : ℚ × ℚ
  sep_total : ℕ
  ali_total : ℕ
  coh_total : ℕ
  deriving Repr, DecidableEq

/-- Zero-initialised accumulators (line 68). -/
def scanAcc0 : ScanAcc := ⟨(0, 0), (0, 0), (0, 0), 0, 0, 0⟩

/-- The inner neighbor loop of `update_boids_cpp` (lines 73-99), reading
positions and velocities from the threaded state `r`.  `n` is `n_boids`,
fixed at function entry. -/
def boid_scan_cpp (sq : ℚ → ℚ) (neighbor_radius : ℚ) (n : ℕ) (r : Agents)
    (i : ℕ) : ScanAcc :=
  iterUp (fun j a =>
    if j = i then a else
    let dx := r.x.getD i 0 - r.x.getD j 0
    let dy := r.y.getD i 0 - r.y.getD j 0
    let d := sq (dx * dx + dy * dy)
    if d < neighbor_radius then
      { sep := (a.sep.1 + dx / d, a.sep.2 + dy / d)
        ali := (a.ali.1 + r.vx.getD j 0, a.ali.2 + r.vy.getD j 0)
        coh := (a.coh.1 + r.x.getD j 0, a.coh.2 + r.y.getD j 0)
        sep_total := a.sep_total + 1
        ali_total := a.ali_total + 1
        coh_total := a.coh_total + 1 }
    else a) n scanAcc0

/-- The predator-avoidance loop of `update_boids_cpp` (lines 103-114). -/
def pred_scan_cpp (sq : ℚ → ℚ) (predator_radius : ℚ) (preds : Positions)
    (xi yi : ℚ) : ℚ × ℚ :=
  iterUp (fun k p =>
    let dx := xi - preds.x.getD k 0
    let dy := yi - preds.y.getD k 0
    let d := sq (dx * dx + dy * dy)
    if d < predator_radius then (p.1 + dx / d, p.2 + dy / d) else p)
    preds.x.size (0, 0)

/-- The area-avoidance loop of `update_boids_cpp` (lines 118-129); zone `k`
uses its own threshold `area_radius[k]`.  The C++ indexes `area_radius[k]`
without any bounds check; the out-of-range case is modelled by the
`getD _ _ 0` default (the C++ behaviour there is undefined). -/
def area_scan_cpp (sq : ℚ → ℚ) (area_radius : Array ℚ) (areas : Positions)
    (xi yi : ℚ) : ℚ × ℚ :=
  iterUp (fun k p =>
    let dx := xi - areas.x.getD k 0
    let dy := yi - areas.y.getD k 0
    let d := sq (dx * dx + dy * dy)
    if d < area_radius.getD k 0 then (p.1 + dx / d, p.2 + dy / d) else p)
    areas.x.size (0, 0)

/-- Velocity of boid `i` after weighted steering composition
(lines 131-193): the five per-rule pipelines followed by
`vx[i] += sep[0]*separation_weight + ...`.  All reads come from the
threaded state `r`. -/
def steer_vel_cpp (sq : ℚ → ℚ) (preds areas : Positions)
    (max_speed neighbor_radius predator_radius : ℚ) (area_radius : Array ℚ)
    (separation_weight alignment_weight cohesion_weight
      predator_avoid_weight area_avoid_weight : ℚ)
    (n : ℕ) (r : Agents) (i : ℕ) : ℚ × ℚ :=
  let a := boid_scan_cpp sq neighbor_radius n r i
  let xi := r.x.getD i 0
  let yi := r.y.getD i 0
  let vxi := r.vx.getD i 0
  let vyi := r.vy.getD i 0
  let sep :=
    if 0 < a.sep_total then
      let s1 := limit sq max_speed
        (a.sep.1 / (a.sep_total : ℚ), a.sep.2 / (a.sep_total : ℚ))
      limit sq max_speed (s1.1 - vxi, s1.2 - vyi)
    else a.sep
  let ali :=
    if 0 < a.ali_total then
      let a1 := limit sq max_speed
        (a.ali.1 / (a.ali_total : ℚ), a.ali.2 / (a.ali_total : ℚ))
      limit sq max_speed (a1.1 - vxi, a1.2 - vyi)
    else a.ali
  let coh :=
    if 0 < a.coh_total then
      let c1 := limit sq max_speed
        (a.coh.1 / (a.coh_total : ℚ) - xi, a.coh.2 / (a.coh_total : ℚ) - yi)
      limit sq max_speed (c1.1 - vxi, c1.2 - vyi)
    else a.coh
  let pr0 := pred_scan_cpp sq predator_radius preds xi yi
  let pr :=
    if 0 < sq (pr0.1 * pr0.1 + pr0.2 * pr0.2) then
      let p1 := limit sq max_speed pr0
      limit sq max_speed (p1.1 - vxi, p1.2 - vyi)
    else pr0
  let ar0 := area_scan_cpp sq area_radius areas xi yi
  let ar :=
    if 0 < sq (ar0.1 * ar0.1 + ar0.2 * ar0.2) then
      let a1 := limit sq max_speed ar0
      limit sq max_speed (a1.1 - vxi, a1.2 - vyi)
    else ar0
  (vxi + sep.1 * separation_weight + ali.1 * alignment_weight
      + coh.1 * cohesion_weight + pr.1 * predator_avoid_weight
      + ar.1 * area_avoid_weight,
   vyi + sep.2 * separation_weight + ali.2 * alignment_weight
      + coh.2 * cohesion_weight + pr.2 * predator_avoid_weight
      + ar.2 * area_avoid_weight)

/-- Velocity of boid `i` immediately after the speed-limiting step
(lines 195-201). -/
def limited_vel_cpp (sq : ℚ → ℚ) (preds areas : Positions)
    (max_speed neighbor_radius predator_radius : ℚ) (area_radius : Array ℚ)
    (sw aw cw pw arw : ℚ) (n : ℕ) (r : Agents) (i : ℕ) : ℚ × ℚ :=
  limit sq max_speed
    (steer_vel_cpp sq preds areas max_speed neighbor_radius predator_radius
      area_radius sw aw cw pw arw n r i)

/-- Velocity of boid `i` after the stochastic perturbation (lines 203-205),
which the source applies after the speed-limiting step. -/
def vel_after_pert_cpp (sq : ℚ → ℚ) (pert : ℕ → ℚ × ℚ)
    (preds areas : Positions)
    (max_speed neighbor_radius predator_radius : ℚ) (area_radius : Array ℚ)
    (sw aw cw pw arw : ℚ) (n : ℕ) (r : Agents) (i : ℕ) : ℚ × ℚ :=
  let v := limited_vel_cpp sq preds areas max_speed neighbor_radius
    predator_radius area_radius sw aw cw pw arw n r i
  (v.1 + (pert i).1, v.2 + (pert i).2)

/-- Wall rebound of the extended variant (lines 214-221 and 297-304): if the
coordinate left `[0, extent]`, negate the velocity component and clamp the
coordinate with `max(0, min(extent, p))`. -/
def rebound_clamp (extent p v : ℚ) : ℚ × ℚ :=
  if p < 0 ∨ p > extent then (max 0 (min extent p), -v) else (p, v)

/-- One iteration of the boid loop of `update_boids_cpp` (lines 65-222):
reads from `r`, writes boid `i`'s next state into `s`.  In the source the
reads and writes go to the same vectors, so the loop instantiates `r := s`. -/
def boid_step_cpp (sq : ℚ → ℚ) (pert : ℕ → ℚ × ℚ) (preds areas : Positions)
    (width height max_speed neighbor_radius predator_radius : ℚ)
    (area_radius : Array ℚ) (sw aw cw pw arw : ℚ) (n : ℕ)
    (r s : Agents) (i : ℕ) : Agents :=
  let v := vel_after_pert_cpp sq pert preds areas max_speed neighbor_radius
    predator_radius area_radius sw aw cw pw arw n r i
  let nx := r.x.getD i 0 + v.1
  let ny := r.y.getD i 0 + v.2
  let rx := rebound_clamp width nx v.1
  let ry := rebound_clamp height ny v.2
  { x := s.x.setD i rx.1, y := s.y.setD i ry.1,
    vx := s.vx.setD i rx.2, vy := s.vy.setD i ry.2 }

/-- The extended-variant boid update `update_boids_cpp` (lines 13-231).
The four boid columns are extracted by reference, so the loop reads from and
writes to the same threaded state (`r := s` in `boid_step_cpp`); the
returned DataFrame is built from those same vectors.  `max_force` is a
formal parameter of the source function (line 20) that its body never
uses. -/
def update_boids_cpp (sq : ℚ → ℚ) (pert : ℕ → ℚ × ℚ) (boids : Agents)
    (predators areas : Positions)
    (width height max_speed max_force neighbor_radius predator_radius : ℚ)
    (area_radius : Array ℚ) (sw aw cw pw arw : ℚ) : Agents :=
  iterUp (fun i s =>
      boid_step_cpp sq pert predators areas width height max_speed
        neighbor_radius predator_radius area_radius sw aw cw pw arw
        boids.x.size s s i)
    boids.x.size boids

/-- Reference semantics for comparison: the same per-boid computation, but
with every cross-boid read taken from the state the function was given
(`r := boids`), i.e. every boid sees only pre-update values.  Writes are
threaded as before. -/
def update_boids_cpp_snapshot (sq : ℚ → ℚ) (pert : ℕ → ℚ × ℚ) (boids : Agents)
    (predators areas : Positions)
    (width height max_speed max_force neighbor_radius predator_radius : ℚ)
    (area_radius : Array ℚ) (sw aw cw pw arw : ℚ) : Agents :=
  iterUp (fun i s =>
      boid_step_cpp sq pert predators areas width height max_speed
        neighbor_radius predator_radius area_radius sw aw cw pw arw
        boids.x.size boids s i)
    boids.x.size boids

/-- The boid arrays the caller observes after `update_boids_cpp` returns.
Because `boids["x"]` etc. are extracted by reference and every write goes
through them, the caller's columns hold exactly the state the function
returns. -/
def update_boids_cpp_caller_boids (sq : ℚ → ℚ) (pert : ℕ → ℚ × ℚ)
    (boids : Agents) (predators areas : Positions)
    (width height max_speed max_force neighbor_radius predator_radius : ℚ)
    (area_radius : Array ℚ) (sw aw cw pw arw : ℚ) : Agents :=
  update_boids_cpp sq pert boids predators areas width height max_speed
    max_force neighbor_radius predator_radius area_radius sw aw cw pw arw

/-- Records whether the separation accumulation of the scan for boid `i`
(lines 82-87) executes `sep[0] += dx / d` with `d == 0`: true exactly when
some loop iteration `j ≠ i` passes the `d < neighbor_radius` test with
`d == 0`.  The source has no `d > 0` guard. -/
def boid_scan_cpp_div_zero (sq : ℚ → ℚ) (neighbor_radius : ℚ) (n : ℕ)
    (r : Agents) (i : ℕ) : Bool :=
  (List.range n).any fun j =>
    if j = i then false else
    let dx := r.x.getD i 0 - r.x.getD j 0
    let dy := r.y.getD i 0 - r.y.getD j 0
    let d := sq (dx * dx + dy * dy)
    decide (d < neighbor_radius) && decide (d = 0)

/-- Records whether `update_boids_cpp` reads `area_radius[k]` out of bounds
(line 125): the `k` loop runs over all `n_areas` zone indices for every
boid, reading `area_radius[k]` unconditionally, with no validation that the
radius array is long enough. -/
def update_boids_cpp_oob_radius (boids : Agents) (areas : Positions)
    (area_radius : Array ℚ) : Bool :=
  (List.range boids.x.size).any fun _i =>
    (List.range areas.x.size).any fun k =>
      decide (area_radius.size ≤ k)

/-! ## Simple variant: `update_boids`
(src/1.boids.sim/1.ai.base.codes/2c.mistral.rebound.cpp, lines 8-138) -/

/-- Accumulators of the neighbor scan of `update_boids` (lines 29-32). -/
structure MScanAcc where
  sep : ℚ × ℚ
  ali : ℚ × ℚ
  coh : ℚ × ℚ
  sep_count : ℕ
  ali_count : ℕ
  coh_count : ℕ
  deriving Repr, DecidableEq

/-- Zero-initialised accumulators (lines 29-32). -/
def mScanAcc0 : MScanAcc := ⟨(0, 0), (0, 0), (0, 0), 0, 0, 0⟩

/-- The inner neighbor loop of `update_boids` (lines 35-56): separation uses
the raw displacement (no division) under the strict `d < separation_radius`
test; alignment and cohesion accumulate under `d < vision_radius`.  Reads
come from `r`. -/
def boid_scan (sq : ℚ → ℚ) (vision_radius separation_radius : ℚ) (n : ℕ)
    (r : Agents) (i : ℕ) : MScanAcc :=
  iterUp (fun j a =>
    if j = i then a else
    let dx := r.x.getD j 0 - r.x.getD i 0
    let dy := r.y.getD j 0 - r.y.getD i 0
    let d := sq (dx * dx + dy * dy)
    let a1 :=
      if d < separation_radius then
        { a with sep := (a.sep.1 - dx, a.sep.2 - dy),
                 sep_count := a.sep_count + 1 }
      else a
    if d < vision_radius then
      { a1 with ali := (a1.ali.1 + r.vx.getD j 0, a1.ali.2 + r.vy.getD j 0),
                ali_count := a1.ali_count + 1,
                coh := (a1.coh.1 + r.x.getD j 0, a1.coh.2 + r.y.getD j 0),
                coh_count := a1.coh_count + 1 }
    else a1) n mScanAcc0

/-- Velocity of boid `i` after composing the three rules (lines 58-99):
each rule normalises its accumulator to `max_speed`, subtracts the current
velocity, and clamps each component to `[-max_force, max_force]`;
zero-magnitude accumulators (and empty counts) fall through unchanged, as in
the source. -/
def mistral_composed_vel (sq : ℚ → ℚ)
    (max_speed max_force vision_radius separation_radius : ℚ) (n : ℕ)
    (r : Agents) (i : ℕ) : ℚ × ℚ :=
  let a := boid_scan sq vision_radius separation_radius n r i
  let vxi := r.vx.getD i 0
  let vyi := r.vy.getD i 0
  let sep :=
    if 0 < a.sep_count then
      let mag := sq (a.sep.1 * a.sep.1 + a.sep.2 * a.sep.2)
      if 0 < mag then
        (max (-max_force) (min max_force (a.sep.1 / mag * max_speed - vxi)),
         max (-max_force) (min max_force (a.sep.2 / mag * max_speed - vyi)))
      else a.sep
    else a.sep
  let ali :=
    if 0 < a.ali_count then
      let a1 := (a.ali.1 / (a.ali_count : ℚ), a.ali.2 / (a.ali_count : ℚ))
      let mag := sq (a1.1 * a1.1 + a1.2 * a1.2)
      if 0 < mag then
        (max (-max_force) (min max_force (a1.1 / mag * max_speed - vxi)),
         max (-max_force) (min max_force (a1.2 / mag * max_speed - vyi)))
      else a1
    else a.ali
  let coh :=
    if 0 < a.coh_count then
      let c1 := (a.coh.1 / (a.coh_count : ℚ) - r.x.getD i 0,
                 a.coh.2 / (a.coh_count : ℚ) - r.y.getD i 0)
      let mag := sq (c1.1 * c1.1 + c1.2 * c1.2)
      if 0 < mag then
        (max (-max_force) (min max_force (c1.1 / mag * max_speed - vxi)),
         max (-max_force) (min max_force (c1.2 / mag * max_speed - vyi)))
      else c1
    else a.coh
  (vxi + sep.1 + ali.1 + coh.1, vyi + sep.2 + ali.2 + coh.2)

/-- Velocity of boid `i` immediately after the speed-limiting step of the
simple variant (lines 101-106), which is the same computation as the `limit`
lambda. -/
def mistral_limited_vel (sq : ℚ → ℚ)
    (max_speed max_force vision_radius separation_radius : ℚ) (n : ℕ)
    (r : Agents) (i : ℕ) : ℚ × ℚ :=
  limit sq max_speed
    (mistral_composed_vel sq max_speed max_force vision_radius
      separation_radius n r i)

/-- Border rebound of the simple variant (lines 112-128): two sequential
`if`s per axis; crossing a wall clamps the coordinate and reverses the
velocity component damped by 0.9. -/
def rebound_damped (extent p v : ℚ) : ℚ × ℚ :=
  let a := if p < 0 then ((0 : ℚ), -v * 0.9) else (p, v)
  if a.1 > extent then (extent, -a.2 * 0.9) else a

/-- The full per-boid computation of the simple variant (lines 27-129) as a
function of the state `r` it reads: returns
`(new_x[i], new_y[i], new_vx[i], new_vy[i])`. -/
def mistral_boid_next (sq : ℚ → ℚ)
    (max_speed max_force vision_radius separation_radius width height : ℚ)
    (n : ℕ) (r : Agents) (i : ℕ) : ℚ × ℚ × ℚ × ℚ :=
  let v := mistral_limited_vel sq max_speed max_force vision_radius
    separation_radius n r i
  let nx := r.x.getD i 0 + v.1
  let ny := r.y.getD i 0 + v.2
  let rx := rebound_damped width nx v.1
  let ry := rebound_damped height ny v.2
  (rx.1, ry.1, rx.2, ry.2)

/-- Loop state of `update_boids`: `curr` are the caller's columns `x`, `y`,
`vx`, `vy` (the source only ever reads them), `buf` the freshly allocated
output buffers `new_x`, `new_y`, `new_vx`, `new_vy`. -/
structure MSt where
  curr : Agents
  buf : Agents
  deriving Repr, DecidableEq

/-- One iteration of the boid loop of `update_boids`: compute boid `i`'s
next state from `curr` and store it in slot `i` of `buf`. -/
def mistral_body (sq : ℚ → ℚ)
    (max_speed max_force vision_radius separation_radius width height : ℚ)
    (n : ℕ) (i : ℕ) (s : MSt) : MSt :=
  let t := mistral_boid_next sq max_speed max_force vision_radius
    separation_radius width height n s.curr i
  { curr := s.curr
    buf := { x := s.buf.x.setD i t.1, y := s.buf.y.setD i t.2.1,
             vx := s.buf.vx.setD i t.2.2.1, vy := s.buf.vy.setD i t.2.2.2 } }

/-- The zero-initialised output buffers `NumericVector new_x(n), ...`
(lines 21-24). -/
def mistral_init_buf (n : ℕ) : Agents :=
  ⟨mkArray n 0, mkArray n 0, mkArray n 0, mkArray n 0⟩

/-- Final loop state of `update_boids` (lines 27-129). -/
def mistral_final (sq : ℚ → ℚ) (boids : Agents)
    (max_speed max_force vision_radius separation_radius width height : ℚ) :
    MSt :=
  iterUp
    (mistral_body sq max_speed max_force vision_radius separation_radius
      width height boids.x.size)
    boids.x.size ⟨boids, mistral_init_buf boids.x.size⟩

/-- The simple-variant boid update `update_boids` (lines 8-138): the
returned DataFrame is built from the `new_*` buffers. -/
def update_boids (sq : ℚ → ℚ) (boids : Agents)
    (max_speed max_force vision_radius separation_radius width height : ℚ) :
    Agents :=
  (mistral_final sq boids max_speed max_force vision_radius separation_radius
    width height).buf

/-- The boid arrays the caller observes after `update_boids` returns: the
columns `x`, `y`, `vx`, `vy` its DataFrame still holds (the `curr` part of
the loop state). -/
def update_boids_caller_boids (sq : ℚ → ℚ) (boids : Agents)
    (max_speed max_force vision_radius separation_radius width height : ℚ) :
    Agents :=
  (mistral_final sq boids max_speed max_force vision_radius separation_radius
    width height).curr

/-! ## Predator update: `update_predators_cpp`
(src/1.boids.sim/2.my.version/1.rebound.poor.areas.cpp, lines 236-314) -/

/-- The closest-boid search (lines 259-271): `closest_dist` starts at
`INFINITY` and `closest_boid` at `-1`; the no-boid-found state is modelled
as `none`.  Every finite distance passes `d < INFINITY`, so the first boid
is always adopted when one exists. -/
def find_closest (sq : ℚ → ℚ) (b : Positions) (pxi pyi : ℚ) : Option (ℚ × ℕ) :=
  iterUp (fun j best =>
    let dx := b.x.getD j 0 - pxi
    let dy := b.y.getD j 0 - pyi
    let d := sq (dx * dx + dy * dy)
    match best with
    | none => some (d, j)
    | some (bd, bj) => if d < bd then some (d, j) else some (bd, bj))
    b.x.size none

/-- One iteration of the predator loop (lines 258-305): steer toward the
closest boid when one exists and the distance is positive, limit speed to
`max_speed * pred_rel_speed`, integrate, rebound.  As in the boid update the
columns are extracted by reference, so reads and writes share the threaded
state. -/
def pred_step (sq : ℚ → ℚ) (b : Positions)
    (width height max_speed pred_rel_speed : ℚ) (i : ℕ) (s : Agents) :
    Agents :=
  let pxi := s.x.getD i 0
  let pyi := s.y.getD i 0
  let v0 := (s.vx.getD i 0, s.vy.getD i 0)
  let v1 :=
    match find_closest sq b pxi pyi with
    | none => v0
    | some (_, bj) =>
      let dx := b.x.getD bj 0 - pxi
      let dy := b.y.getD bj 0 - pyi
      let d := sq (dx * dx + dy * dy)
      if d > 0 then (v0.1 + dx / d * 0.05, v0.2 + dy / d * 0.05) else v0
  let speed := sq (v1.1 * v1.1 + v1.2 * v1.2)
  let v2 :=
    if speed > max_speed * pred_rel_speed then
      (v1.1 / speed * max_speed * pred_rel_speed,
       v1.2 / speed * max_speed * pred_rel_speed)
    else v1
  let nx := pxi + v2.1
  let ny := pyi + v2.2
  let rx := rebound_clamp width nx v2.1
  let ry := rebound_clamp height ny v2.2
  { x := s.x.setD i rx.1, y := s.y.setD i ry.1,
    vx := s.vx.setD i rx.2, vy := s.vy.setD i ry.2 }

/-- The predator update `update_predators_cpp` (lines 236-314). -/
def update_predators_cpp (sq : ℚ → ℚ) (predators : Agents) (boids : Positions)
    (width height max_speed pred_rel_speed : ℚ) : Agents :=
  iterUp (fun i s => pred_step sq boids width height max_speed
    pred_rel_speed i s) predators.x.size predators

/-- Modelled from the spec (§4.2, §8): the predator tick with no steering —
"its velocity carries over unsteered into speed-limiting and integration",
followed by boundary rebound.  Used to state what `update_predators_cpp`
reduces to on an empty boid population. -/
def pred_step_passive (sq : ℚ → ℚ)
    (width height max_speed pred_rel_speed : ℚ) (i : ℕ) (s : Agents) :
    Agents :=
  let pxi := s.x.getD i 0
  let pyi := s.y.getD i 0
  let v1 := (s.vx.getD i 0, s.vy.getD i 0)
  let speed := sq (v1.1 * v1.1 + v1.2 * v1.2)
  let v2 :=
    if speed > max_speed * pred_rel_speed then
      (v1.1 / speed * max_speed * pred_rel_speed,
       v1.2 / speed * max_speed * pred_rel_speed)
    else v1
  let nx := pxi + v2.1
  let ny := pyi + v2.2
  let rx := rebound_clamp width nx v2.1
  let ry := rebound_clamp height ny v2.2
  { x := s.x.setD i rx.1, y := s.y.setD i ry.1,
    vx := s.vx.setD i rx.2, vy := s.vy.setD i ry.2 }

/-- Modelled from the spec (§4.2, §8): the predator update with no steering
applied to any predator. -/
def update_predators_passive (sq : ℚ → ℚ) (predators : Agents)
    (width height max_speed pred_rel_speed : ℚ) : Agents :=
  iterUp (fun i s => pred_step_passive sq width height max_speed
    pred_rel_speed i s) predators.x.size predators

/-- Modelled from the spec (claim C7's wording): agents returned "with
position and velocity unchanged except for boundary rebound" — the rebound
step applied to the current state and nothing else. -/
def rebound_only (width height : ℚ) (a : Agents) : Agents :=
  iterUp (fun i s =>
    let rx := rebound_clamp width (s.x.getD i 0) (s.vx.getD i 0)
    let ry := rebound_clamp height (s.y.getD i 0) (s.vy.getD i 0)
    { x := s.x.setD i rx.1, y := s.y.setD i ry.1,
      vx := s.vx.setD i rx.2, vy := s.vy.setD i ry.2 })
    a.x.size a

/-! ## Concrete instances used by witnesses and counterexamples -/

/-- A concrete square-root table for the closed evaluations below.  It gives
the true square root at every argument where the value (and not merely a
branch comparison) feeds the result: `0 → 0`, `1 → 1`, `4 → 2`, `25 → 5`,
`13 → 18/5` (≈ 3.606), and a default of `1` elsewhere, which agrees with the
true square root on every branch test the evaluations perform. -/
def sqW : ℚ → ℚ := fun q =>
  if q = 0 then 0
  else if q = 1 then 1
  else if q = 4 then 2
  else if q = 25 then 5
  else if q = 13 then 18 / 5
  else 1

/-- The null perturbation source: every draw is zero. -/
def pert0 : ℕ → ℚ × ℚ := fun _ => (0, 0)

/-! ## Helper lemmas -/

theorem iterUp_zero (f : ℕ → α → α) (s : α) : iterUp f 0 s = s := rfl

theorem iterUp_succ (f : ℕ → α → α) (n : ℕ) (s : α) :
    iterUp f (n + 1) s = f n (iterUp f n s) := rfl

theorem iterUp_invariant (f : ℕ → α → α) (Inv : ℕ → α → Prop) :
    ∀ n : ℕ, (∀ i, i < n → ∀ s, Inv i s → Inv (i + 1) (f i s)) →
      ∀ s, Inv 0 s → Inv n (iterUp f n s) := by
  intro n
  induction n with
  | zero => intro _ s h0; exact h0
  | succ n ih =>
    intro hstep s h0
    exact hstep n (Nat.lt_succ_self n) _
      (ih (fun i hi => hstep i (Nat.lt_succ_of_lt hi)) s h0)

theorem iterUp_congr (f g : ℕ → α → α) (h : ∀ i s, f i s = g i s) :
    ∀ n s, iterUp f n s = iterUp g n s := by
  intro n
  induction n with
  | zero => intro s; rfl
  | succ n ih => intro s; simp [iterUp, ih, h]

theorem size_setD (a : Array ℚ) (i : ℕ) (v : ℚ) :
    (a.setD i v).size = a.size :=
  Array.size_setD a i v

theorem getD_setD_self (a : Array ℚ) (i : ℕ) (v d : ℚ) (h : i < a.size) :
    (a.setD i v).getD i d = v := by
  simp only [Array.getD_eq_get?, Array.getElem?_setD_eq a h v, Option.getD_some]

theorem getD_setD_ne (a : Array ℚ) (i j : ℕ) (v d : ℚ) (hne : j ≠ i) :
    (a.setD i v).getD j d = a.getD j d := by
  simp only [Array.getD_eq_get?]
  congr 1
  unfold Array.setD
  split
  · exact Array.getElem?_set_ne _ _ _ (Ne.symm hne)
  · rfl

theorem update_boids_cpp_x_size (sq : ℚ → ℚ) (pert : ℕ → ℚ × ℚ)
    (boids : Agents) (predators areas : Positions)
    (width height max_speed max_force neighbor_radius predator_radius : ℚ)
    (area_radius : Array ℚ) (sw aw cw pw arw : ℚ) :
    (update_boids_cpp sq pert boids predators areas width height max_speed
        max_force neighbor_radius predator_radius area_radius sw aw cw pw
        arw).x.size = boids.x.size := by
  unfold update_boids_cpp
  exact iterUp_invariant
    (fun i s => boid_step_cpp sq pert predators areas width height max_speed
      neighbor_radius predator_radius area_radius sw aw cw pw arw
      boids.x.size s s i)
    (fun _ s => s.x.size = boids.x.size) boids.x.size
    (fun i _ s hs => by simp only [boid_step_cpp, size_setD]; exact hs)
    boids rfl

theorem rebound_clamp_mem (extent p v : ℚ) (hext : 0 ≤ extent) :
    0 ≤ (rebound_clamp extent p v).1 ∧ (rebound_clamp extent p v).1 ≤ extent := by
  unfold rebound_clamp
  split
  · constructor
    · exact le_max_left 0 _
    · exact max_le hext (min_le_left _ _)
  · rename_i h
    push_neg at h
    exact ⟨h.1, h.2⟩

theorem rebound_damped_mem (extent p v : ℚ) (hext : 0 ≤ extent) :
    0 ≤ (rebound_damped extent p v).1 ∧ (rebound_damped extent p v).1 ≤ extent := by
  simp only [rebound_damped]
  split_ifs with h1 h2 h3 <;> simp_all

/-! ## Claim theorems -/

/-- C10: the extended-variant boid update is independent of its `max_force`
parameter — two calls whose inputs (including the perturbation draws) agree
on everything but `max_force` return identical positions and velocities,
because every steering vector is limited only against `max_speed` by the
`limit` helper and the body of `update_boids_cpp` never consults
`max_force`. -/
theorem c10_max_force_independent (sq : ℚ → ℚ) (pert : ℕ → ℚ × ℚ)
    (boids : Agents) (predators areas : Positions)
    (width height max_speed mf1 mf2 neighbor_radius predator_radius : ℚ)
    (area_radius : Array ℚ) (sw aw cw pw arw : ℚ) :
    update_boids_cpp sq pert boids predators areas width height max_speed mf1
        neighbor_radius predator_radius area_radius sw aw cw pw arw
      = update_boids_cpp sq pert boids predators areas width height max_speed
        mf2 neighbor_radius predator_radius area_radius sw aw cw pw arw := rfl

/-- C2: the claim says every division by a pairwise distance is guarded
against `d == 0`; the extended variant has no such guard.  With two
coincident boids (both at the origin) and `neighbor_radius = 1`, the scan
for boid 0 passes the `d < neighbor_radius` test with `d = sqrt(0) = 0` and
executes `sep[0] += dx / d`, a division by zero (IEEE `0.0/0.0 = NaN` in the
C++). -/
theorem c2_division_by_zero_coincident_boids :
    boid_scan_cpp_div_zero sqW 1 2 ⟨#[0, 0], #[0, 0], #[0, 0], #[0, 0]⟩ 0
      = true := by
  norm_num [boid_scan_cpp_div_zero, List.range_succ, sqW, Array.getD]

/-- C4: the claim says a hazard-radius array shorter than the zone position
arrays makes the update fail fast with a validation error, without reading
the radius array out of bounds.  The code has no validation at all: with one
boid, one zone and an empty radius array it reads `area_radius[0]` out of
bounds (undefined behaviour, modelled by the `getD` default) and still
returns a full output DataFrame. -/
theorem c4_oob_radius_read_no_validation :
    update_boids_cpp_oob_radius ⟨#[0], #[0], #[0], #[0]⟩ ⟨#[5], #[5]⟩ #[]
        = true
    ∧ (update_boids_cpp sqW pert0 ⟨#[0], #[0], #[0], #[0]⟩ ⟨#[], #[]⟩
        ⟨#[5], #[5]⟩ 100 100 10 1 5 5 #[] 1 1 1 1 1).x.size = 1 := by
  constructor
  · norm_num [update_boids_cpp_oob_radius, List.range_succ]
  · rw [update_boids_cpp_x_size]
    rfl

/-- C3 (amended): the simple variant leaves the caller's input arrays
unchanged — it writes only to the freshly allocated `new_*` buffers and
returns those.  (The extended variant instead writes next-tick state through
the extracted input columns; see the counterexample.) -/
theorem c3_simple_variant_inputs_unchanged (sq : ℚ → ℚ) (boids : Agents)
    (max_speed max_force vision_radius separation_radius width height : ℚ) :
    update_boids_caller_boids sq boids max_speed max_force vision_radius
        separation_radius width height = boids := by
  unfold update_boids_caller_boids mistral_final
  have h := iterUp_invariant
    (mistral_body sq max_speed max_force vision_radius separation_radius
      width height boids.x.size)
    (fun _ s => s.curr = boids) boids.x.size
    (fun i _ s hs => by simp only [mistral_body]; exact hs)
    ⟨boids, mistral_init_buf boids.x.size⟩ rfl
  exact h

set_option maxHeartbeats 1000000 in
/-- C3 (counterexample): `update_boids_cpp` mutates the caller's arrays.
A single boid at the origin with velocity `(1, 0)` moves to `(1, 0)`, and
after the call the caller's boids DataFrame (whose columns the function
wrote through) holds `x = [1]`, not the input `x = [0]`. -/
theorem c3_counterexample_cpp_mutates_caller :
    (update_boids_cpp_caller_boids sqW pert0 ⟨#[0], #[0], #[1], #[0]⟩
        ⟨#[], #[]⟩ ⟨#[], #[]⟩ 100 100 10 0 5 5 #[] 1 1 1 1 1).x
      ≠ (Agents.mk #[0] #[0] #[1] #[0]).x := by
  norm_num [update_boids_cpp_caller_boids, update_boids_cpp, boid_step_cpp,
    vel_after_pert_cpp, limited_vel_cpp, steer_vel_cpp, boid_scan_cpp,
    pred_scan_cpp, area_scan_cpp, limit, rebound_clamp, pert0, sqW, scanAcc0,
    iterUp_zero, iterUp_succ, Array.getD, Array.setD, Array.set, List.set]

/-- C7 (amended): with an empty boid population, `update_predators_cpp`
applies no steering: each predator's velocity carries over unsteered into
the speed-limiting, position-integration and boundary-rebound steps. -/
theorem c7_empty_boids_no_steering (sq : ℚ → ℚ) (predators : Agents)
    (width height max_speed pred_rel_speed : ℚ) :
    update_predators_cpp sq predators ⟨#[], #[]⟩ width height max_speed
        pred_rel_speed
      = update_predators_passive sq predators width height max_speed
        pred_rel_speed := by
  unfold update_predators_cpp update_predators_passive
  apply iterUp_congr
  intro i s
  simp [pred_step, pred_step_passive, find_closest, iterUp_zero]

set_option maxHeartbeats 1000000 in
/-- C7 (counterexample): the claim as stated says the predators come back
with position and velocity unchanged except for boundary rebound.  A single
predator at `(1, 1)` with velocity `(1, 0)` and no boids is still integrated
to position `(2, 1)`, while rebound alone would leave it at `(1, 1)`. -/
theorem c7_counterexample_position_still_integrates :
    (update_predators_cpp sqW ⟨#[1], #[1], #[1], #[0]⟩ ⟨#[], #[]⟩
        100 100 10 1).x.getD 0 0
      ≠ (rebound_only 100 100 ⟨#[1], #[1], #[1], #[0]⟩).x.getD 0 0 := by
  norm_num [update_predators_cpp, pred_step, find_closest, rebound_only,
    rebound_clamp, sqW, iterUp_zero, iterUp_succ, Array.getD, Array.setD,
    Array.set, List.set]

/-- C8: a single isolated boid at `(0, 0)` with velocity `(-1, -1)` in a
`100 × 100` domain, under the simple variant with its built-in damping 0.9:
when the computed speed `sqrt(2)` does not exceed `max_speed`, the next
position is clamped to `(0, 0)` and the next velocity is `(0.9, 0.9)` (both
components sign-inverted and damped). -/
theorem c8_single_boid_rebound (sq : ℚ → ℚ)
    (max_speed max_force vision_radius separation_radius : ℚ)
    (h : sq 2 ≤ max_speed) :
    update_boids sq ⟨#[0], #[0], #[-1], #[-1]⟩ max_speed max_force
        vision_radius separation_radius 100 100
      = ⟨#[0], #[0], #[9/10], #[9/10]⟩ := by
  have hnot : ¬ (sq 2 > max_speed) := not_lt.mpr h
  norm_num [update_boids, mistral_final, iterUp_zero, iterUp_succ,
    mistral_body, mistral_boid_next, mistral_limited_vel,
    mistral_composed_vel, boid_scan, limit, rebound_damped, mistral_init_buf,
    mScanAcc0, Array.getD, Array.setD, mkArray, Array.set, List.set, hnot]

/-- C8 witness: the theorem applied at `sq := sqW`, `max_speed := 2`. -/
theorem c8_witness :
    sqW 2 ≤ 2
    ∧ update_boids sqW ⟨#[0], #[0], #[-1], #[-1]⟩ 2 1 7 3 100 100
        = ⟨#[0], #[0], #[9/10], #[9/10]⟩ :=
  ⟨by norm_num [sqW], c8_single_boid_rebound sqW 2 1 7 3 (by norm_num [sqW])⟩
/-- C1 (amended): in the simple routine every boid's output slot is a
function of the pre-update input state only — slot `i` of the returned
buffers equals the per-boid computation `mistral_boid_next` applied to the
unmodified input arrays, however many other boids were processed before
`i`.  (The extended routine violates the claim; see the counterexample.) -/
theorem c1_simple_variant_reads_preupdate (sq : ℚ → ℚ) (boids : Agents)
    (max_speed max_force vision_radius separation_radius width height : ℚ)
    (i : ℕ) (hi : i < boids.x.size) :
    ((update_boids sq boids max_speed max_force vision_radius
        separation_radius width height).x.getD i 0,
     (update_boids sq boids max_speed max_force vision_radius
        separation_radius width height).y.getD i 0,
     (update_boids sq boids max_speed max_force vision_radius
        separation_radius width height).vx.getD i 0,
     (update_boids sq boids max_speed max_force vision_radius
        separation_radius width height).vy.getD i 0)
      = mistral_boid_next sq max_speed max_force vision_radius
          separation_radius width height boids.x.size boids i := by
  have H := iterUp_invariant
    (mistral_body sq max_speed max_force vision_radius separation_radius
      width height boids.x.size)
    (fun k s => s.curr = boids
      ∧ s.buf.x.size = boids.x.size ∧ s.buf.y.size = boids.x.size
      ∧ s.buf.vx.size = boids.x.size ∧ s.buf.vy.size = boids.x.size
      ∧ ∀ j, j < k →
          s.buf.x.getD j 0 = (mistral_boid_next sq max_speed max_force
              vision_radius separation_radius width height boids.x.size
              boids j).1
          ∧ s.buf.y.getD j 0 = (mistral_boid_next sq max_speed max_force
              vision_radius separation_radius width height boids.x.size
              boids j).2.1
          ∧ s.buf.vx.getD j 0 = (mistral_boid_next sq max_speed max_force
              vision_radius separation_radius width height boids.x.size
              boids j).2.2.1
          ∧ s.buf.vy.getD j 0 = (mistral_boid_next sq max_speed max_force
              vision_radius separation_radius width height boids.x.size
              boids j).2.2.2)
    boids.x.size
    (by
      intro k hk s hs
      obtain ⟨hc, hx, hy, hvx, hvy, hj⟩ := hs
      simp only [mistral_body]
      refine ⟨hc, ?_, ?_, ?_, ?_, ?_⟩
      · rw [size_setD]; exact hx
      · rw [size_setD]; exact hy
      · rw [size_setD]; exact hvx
      · rw [size_setD]; exact hvy
      · intro j hjk
        rcases Nat.lt_succ_iff_lt_or_eq.mp hjk with hlt | heq
        · have old := hj j hlt
          have hne : j ≠ k := Nat.ne_of_lt hlt
          refine ⟨?_, ?_, ?_, ?_⟩
          · rw [getD_setD_ne _ _ _ _ _ hne]; exact old.1
          · rw [getD_setD_ne _ _ _ _ _ hne]; exact old.2.1
          · rw [getD_setD_ne _ _ _ _ _ hne]; exact old.2.2.1
          · rw [getD_setD_ne _ _ _ _ _ hne]; exact old.2.2.2
        · subst heq
          rw [hc]
          refine ⟨?_, ?_, ?_, ?_⟩
          · rw [getD_setD_self _ _ _ _ (by rw [hx]; exact hk)]
          · rw [getD_setD_self _ _ _ _ (by rw [hy]; exact hk)]
          · rw [getD_setD_self _ _ _ _ (by rw [hvx]; exact hk)]
          · rw [getD_setD_self _ _ _ _ (by rw [hvy]; exact hk)])
    ⟨boids, mistral_init_buf boids.x.size⟩
    (by
      refine ⟨rfl, ?_, ?_, ?_, ?_, ?_⟩
      · simp [mistral_init_buf]
      · simp [mistral_init_buf]
      · simp [mistral_init_buf]
      · simp [mistral_init_buf]
      · intro j hj; omega)
  obtain ⟨hc, hx, hy, hvx, hvy, hj⟩ := H
  have hcomp := hj i hi
  unfold update_boids mistral_final
  exact Prod.ext hcomp.1 (Prod.ext hcomp.2.1 (Prod.ext hcomp.2.2.1 hcomp.2.2.2))

set_option maxHeartbeats 1000000 in
/-- C1 (counterexample): with two boids within alignment range, updating in
place makes boid 1 read boid 0's already-updated velocity; the result
differs from the snapshot semantics in which every read sees pre-update
state. -/
theorem c1_counterexample_cpp_reads_updated_state :
    (update_boids_cpp sqW pert0 ⟨#[0, 0], #[0, 1], #[1, 0], #[0, 0]⟩
        ⟨#[], #[]⟩ ⟨#[], #[]⟩ 100 100 100 0 10 0 #[] 0 1 0 0 0).vx.getD 1 0
      ≠ (update_boids_cpp_snapshot sqW pert0 ⟨#[0, 0], #[0, 1], #[1, 0], #[0, 0]⟩
        ⟨#[], #[]⟩ ⟨#[], #[]⟩ 100 100 100 0 10 0 #[] 0 1 0 0 0).vx.getD 1 0 := by
  have e0 : boid_step_cpp sqW pert0 ⟨#[], #[]⟩ ⟨#[], #[]⟩ 100 100 100 10 0 #[]
      0 1 0 0 0 2 ⟨#[0, 0], #[0, 1], #[1, 0], #[0, 0]⟩
      ⟨#[0, 0], #[0, 1], #[1, 0], #[0, 0]⟩ 0
      = ⟨#[0, 0], #[0, 1], #[0, 0], #[0, 0]⟩ := by
    norm_num [boid_step_cpp, vel_after_pert_cpp, limited_vel_cpp, steer_vel_cpp,
      boid_scan_cpp, pred_scan_cpp, area_scan_cpp, limit, rebound_clamp, pert0,
      sqW, scanAcc0, iterUp_zero, iterUp_succ, Array.getD, Array.setD,
      Array.set, List.set]
  have e1 : boid_step_cpp sqW pert0 ⟨#[], #[]⟩ ⟨#[], #[]⟩ 100 100 100 10 0 #[]
      0 1 0 0 0 2 ⟨#[0, 0], #[0, 1], #[0, 0], #[0, 0]⟩
      ⟨#[0, 0], #[0, 1], #[0, 0], #[0, 0]⟩ 1
      = ⟨#[0, 0], #[0, 1], #[0, 0], #[0, 0]⟩ := by
    norm_num [boid_step_cpp, vel_after_pert_cpp, limited_vel_cpp, steer_vel_cpp,
      boid_scan_cpp, pred_scan_cpp, area_scan_cpp, limit, rebound_clamp, pert0,
      sqW, scanAcc0, iterUp_zero, iterUp_succ, Array.getD, Array.setD,
      Array.set, List.set]
  have e1s : boid_step_cpp sqW pert0 ⟨#[], #[]⟩ ⟨#[], #[]⟩ 100 100 100 10 0 #[]
      0 1 0 0 0 2 ⟨#[0, 0], #[0, 1], #[1, 0], #[0, 0]⟩
      ⟨#[0, 0], #[0, 1], #[0, 0], #[0, 0]⟩ 1
      = ⟨#[0, 1], #[0, 1], #[0, 1], #[0, 0]⟩ := by
    norm_num [boid_step_cpp, vel_after_pert_cpp, limited_vel_cpp, steer_vel_cpp,
      boid_scan_cpp, pred_scan_cpp, area_scan_cpp, limit, rebound_clamp, pert0,
      sqW, scanAcc0, iterUp_zero, iterUp_succ, Array.getD, Array.setD,
      Array.set, List.set]
  norm_num [update_boids_cpp, update_boids_cpp_snapshot, iterUp_succ,
    iterUp_zero, e0, e1, e1s, Array.getD]

theorem c1_witness :
    0 < (Agents.mk #[0] #[0] #[1] #[0]).x.size
    ∧ ((update_boids sqW ⟨#[0], #[0], #[1], #[0]⟩ 10 1 5 3 100 100).x.getD 0 0,
       (update_boids sqW ⟨#[0], #[0], #[1], #[0]⟩ 10 1 5 3 100 100).y.getD 0 0,
       (update_boids sqW ⟨#[0], #[0], #[1], #[0]⟩ 10 1 5 3 100 100).vx.getD 0 0,
       (update_boids sqW ⟨#[0], #[0], #[1], #[0]⟩ 10 1 5 3 100 100).vy.getD 0 0)
        = mistral_boid_next sqW 10 1 5 3 100 100
            (Agents.mk #[0] #[0] #[1] #[0]).x.size ⟨#[0], #[0], #[1], #[0]⟩ 0 :=
  ⟨by decide,
   c1_simple_variant_reads_preupdate sqW ⟨#[0], #[0], #[1], #[0]⟩ 10 1 5 3
     100 100 0 (by decide)⟩

/-- C6: after one tick of either boid-update routine (with non-negative
width and height, and well-formed equal-length position columns), every
boid's returned position lies within `[0, width] × [0, height]`: the
boundary-rebound step is the last step of each loop body and clamps any
out-of-range coordinate. -/
theorem c6_positions_within_domain (sq : ℚ → ℚ) (pert : ℕ → ℚ × ℚ)
    (boids : Agents) (predators areas : Positions)
    (width height max_speed max_force neighbor_radius predator_radius : ℚ)
    (area_radius : Array ℚ)
    (sw aw cw pw arw vision_radius separation_radius : ℚ)
    (hw : 0 ≤ width) (hh : 0 ≤ height) (hy : boids.y.size = boids.x.size)
    (i : ℕ) (hi : i < boids.x.size) :
    (0 ≤ (update_boids_cpp sq pert boids predators areas width height
          max_speed max_force neighbor_radius predator_radius area_radius
          sw aw cw pw arw).x.getD i 0
      ∧ (update_boids_cpp sq pert boids predators areas width height
          max_speed max_force neighbor_radius predator_radius area_radius
          sw aw cw pw arw).x.getD i 0 ≤ width
      ∧ 0 ≤ (update_boids_cpp sq pert boids predators areas width height
          max_speed max_force neighbor_radius predator_radius area_radius
          sw aw cw pw arw).y.getD i 0
      ∧ (update_boids_cpp sq pert boids predators areas width height
          max_speed max_force neighbor_radius predator_radius area_radius
          sw aw cw pw arw).y.getD i 0 ≤ height)
    ∧ (0 ≤ (update_boids sq boids max_speed max_force vision_radius
          separation_radius width height).x.getD i 0
      ∧ (update_boids sq boids max_speed max_force vision_radius
          separation_radius width height).x.getD i 0 ≤ width
      ∧ 0 ≤ (update_boids sq boids max_speed max_force vision_radius
          separation_radius width height).y.getD i 0
      ∧ (update_boids sq boids max_speed max_force vision_radius
          separation_radius width height).y.getD i 0 ≤ height) := by
  constructor
  · have H := iterUp_invariant
      (fun k s => boid_step_cpp sq pert predators areas width height
        max_speed neighbor_radius predator_radius area_radius sw aw cw pw arw
        boids.x.size s s k)
      (fun k s => s.x.size = boids.x.size ∧ s.y.size = boids.y.size
        ∧ ∀ j, j < k →
            0 ≤ s.x.getD j 0 ∧ s.x.getD j 0 ≤ width
            ∧ 0 ≤ s.y.getD j 0 ∧ s.y.getD j 0 ≤ height)
      boids.x.size
      (by
        intro k hk s hs
        obtain ⟨hx, hyy, hj⟩ := hs
        simp only [boid_step_cpp]
        refine ⟨by rw [size_setD]; exact hx, by rw [size_setD]; exact hyy, ?_⟩
        intro j hjk
        rcases Nat.lt_succ_iff_lt_or_eq.mp hjk with hlt | heq
        · have old := hj j hlt
          have hne : j ≠ k := Nat.ne_of_lt hlt
          rw [getD_setD_ne _ _ _ _ _ hne, getD_setD_ne _ _ _ _ _ hne]
          exact old
        · subst heq
          rw [getD_setD_self _ _ _ _ (by rw [hx]; exact hk),
            getD_setD_self _ _ _ _ (by rw [hyy, hy]; exact hk)]
          have h1 := rebound_clamp_mem width
            (s.x.getD j 0 + (vel_after_pert_cpp sq pert predators areas
              max_speed neighbor_radius predator_radius area_radius
              sw aw cw pw arw boids.x.size s j).1)
            (vel_after_pert_cpp sq pert predators areas max_speed
              neighbor_radius predator_radius area_radius sw aw cw pw arw
              boids.x.size s j).1 hw
          have h2 := rebound_clamp_mem height
            (s.y.getD j 0 + (vel_after_pert_cpp sq pert predators areas
              max_speed neighbor_radius predator_radius area_radius
              sw aw cw pw arw boids.x.size s j).2)
            (vel_after_pert_cpp sq pert predators areas max_speed
              neighbor_radius predator_radius area_radius sw aw cw pw arw
              boids.x.size s j).2 hh
          exact ⟨h1.1, h1.2, h2.1, h2.2⟩)
      boids ⟨rfl, rfl, by intro j hj0; omega⟩
    obtain ⟨hx, hyy, hj⟩ := H
    have := hj i hi
    unfold update_boids_cpp
    exact this
  · have H := iterUp_invariant
      (mistral_body sq max_speed max_force vision_radius separation_radius
        width height boids.x.size)
      (fun k s => s.buf.x.size = boids.x.size ∧ s.buf.y.size = boids.x.size
        ∧ ∀ j, j < k →
            0 ≤ s.buf.x.getD j 0 ∧ s.buf.x.getD j 0 ≤ width
            ∧ 0 ≤ s.buf.y.getD j 0 ∧ s.buf.y.getD j 0 ≤ height)
      boids.x.size
      (by
        intro k hk s hs
        obtain ⟨hx, hyy, hj⟩ := hs
        simp only [mistral_body, mistral_boid_next]
        refine ⟨by rw [size_setD]; exact hx, by rw [size_setD]; exact hyy, ?_⟩
        intro j hjk
        rcases Nat.lt_succ_iff_lt_or_eq.mp hjk with hlt | heq
        · have old := hj j hlt
          have hne : j ≠ k := Nat.ne_of_lt hlt
          rw [getD_setD_ne _ _ _ _ _ hne, getD_setD_ne _ _ _ _ _ hne]
          exact old
        · subst heq
          rw [getD_setD_self _ _ _ _ (by rw [hx]; exact hk),
            getD_setD_self _ _ _ _ (by rw [hyy]; exact hk)]
          have h1 := rebound_damped_mem width
            (s.curr.x.getD j 0 + (mistral_limited_vel sq max_speed max_force
              vision_radius separation_radius boids.x.size s.curr j).1)
            (mistral_limited_vel sq max_speed max_force vision_radius
              separation_radius boids.x.size s.curr j).1 hw
          have h2 := rebound_damped_mem height
            (s.curr.y.getD j 0 + (mistral_limited_vel sq max_speed max_force
              vision_radius separation_radius boids.x.size s.curr j).2)
            (mistral_limited_vel sq max_speed max_force vision_radius
              separation_radius boids.x.size s.curr j).2 hh
          exact ⟨h1.1, h1.2, h2.1, h2.2⟩)
      ⟨boids, mistral_init_buf boids.x.size⟩
      ⟨by simp [mistral_init_buf], by simp [mistral_init_buf],
        by intro j hj0; omega⟩
    obtain ⟨hx, hyy, hj⟩ := H
    have := hj i hi
    unfold update_boids mistral_final
    exact this

/-- C6 witness: the theorem at a concrete one-boid input. -/
theorem c6_witness :
    0 ≤ (update_boids_cpp sqW pert0 ⟨#[0], #[0], #[1], #[0]⟩ ⟨#[], #[]⟩
        ⟨#[], #[]⟩ 100 100 10 1 5 5 #[] 1 1 1 1 1).x.getD 0 0
    ∧ (update_boids_cpp sqW pert0 ⟨#[0], #[0], #[1], #[0]⟩ ⟨#[], #[]⟩
        ⟨#[], #[]⟩ 100 100 10 1 5 5 #[] 1 1 1 1 1).x.getD 0 0 ≤ 100
    ∧ 0 ≤ (update_boids sqW ⟨#[0], #[0], #[1], #[0]⟩ 10 1 5 3 100 100).y.getD 0 0
    ∧ (update_boids sqW ⟨#[0], #[0], #[1], #[0]⟩ 10 1 5 3 100 100).y.getD 0 0 ≤ 100 :=
  have h := c6_positions_within_domain sqW pert0 ⟨#[0], #[0], #[1], #[0]⟩
    ⟨#[], #[]⟩ ⟨#[], #[]⟩ 100 100 10 1 5 5 #[] 1 1 1 1 1 5 3
    (by norm_num) (by norm_num) (by decide) 0 (by decide)
  ⟨h.1.1, h.1.2.1, h.2.2.2.1, h.2.2.2.2⟩

/-- C9: the separation-neighbor test is strictly exclusive at the threshold
in both variants.  For a pair of boids whose computed distance equals the
threshold exactly, neither scan accumulates any separation contribution
(count stays 0 and the separation accumulator stays `(0, 0)`); at positive
distance strictly below the threshold, both scans accumulate exactly one
contribution for each boid of the pair. -/
theorem c9_separation_threshold_strict (sq : ℚ → ℚ)
    (x0 y0 x1 y1 vx0 vy0 vx1 vy1 r vision_radius : ℚ) :
    (sq ((x0 - x1) * (x0 - x1) + (y0 - y1) * (y0 - y1)) = r →
      (boid_scan_cpp sq r 2 ⟨#[x0, x1], #[y0, y1], #[vx0, vx1], #[vy0, vy1]⟩
          0).sep_total = 0
      ∧ (boid_scan_cpp sq r 2 ⟨#[x0, x1], #[y0, y1], #[vx0, vx1], #[vy0, vy1]⟩
          0).sep = (0, 0)
      ∧ (boid_scan_cpp sq r 2 ⟨#[x0, x1], #[y0, y1], #[vx0, vx1], #[vy0, vy1]⟩
          1).sep_total = 0
      ∧ (boid_scan_cpp sq r 2 ⟨#[x0, x1], #[y0, y1], #[vx0, vx1], #[vy0, vy1]⟩
          1).sep = (0, 0)
      ∧ (boid_scan sq vision_radius r 2
          ⟨#[x0, x1], #[y0, y1], #[vx0, vx1], #[vy0, vy1]⟩ 0).sep_count = 0
      ∧ (boid_scan sq vision_radius r 2
          ⟨#[x0, x1], #[y0, y1], #[vx0, vx1], #[vy0, vy1]⟩ 0).sep = (0, 0)
      ∧ (boid_scan sq vision_radius r 2
          ⟨#[x0, x1], #[y0, y1], #[vx0, vx1], #[vy0, vy1]⟩ 1).sep_count = 0
      ∧ (boid_scan sq vision_radius r 2
          ⟨#[x0, x1], #[y0, y1], #[vx0, vx1], #[vy0, vy1]⟩ 1).sep = (0, 0))
    ∧ (0 < sq ((x0 - x1) * (x0 - x1) + (y0 - y1) * (y0 - y1)) →
       sq ((x0 - x1) * (x0 - x1) + (y0 - y1) * (y0 - y1)) < r →
      (boid_scan_cpp sq r 2 ⟨#[x0, x1], #[y0, y1], #[vx0, vx1], #[vy0, vy1]⟩
          0).sep_total = 1
      ∧ (boid_scan_cpp sq r 2 ⟨#[x0, x1], #[y0, y1], #[vx0, vx1], #[vy0, vy1]⟩
          1).sep_total = 1
      ∧ (boid_scan sq vision_radius r 2
          ⟨#[x0, x1], #[y0, y1], #[vx0, vx1], #[vy0, vy1]⟩ 0).sep_count = 1
      ∧ (boid_scan sq vision_radius r 2
          ⟨#[x0, x1], #[y0, y1], #[vx0, vx1], #[vy0, vy1]⟩ 1).sep_count = 1) := by
  have hflip : (x1 - x0) * (x1 - x0) + (y1 - y0) * (y1 - y0)
      = (x0 - x1) * (x0 - x1) + (y0 - y1) * (y0 - y1) := by ring
  constructor
  · intro h
    have hc1 : ¬ (sq ((x0 - x1) * (x0 - x1) + (y0 - y1) * (y0 - y1)) < r) := by
      rw [h]; exact lt_irrefl r
    have hc2 : ¬ (sq ((x1 - x0) * (x1 - x0) + (y1 - y0) * (y1 - y0)) < r) := by
      rw [hflip, h]; exact lt_irrefl r
    simp only [boid_scan_cpp, boid_scan, iterUp_succ, iterUp_zero, Array.getD]
    norm_num [scanAcc0, mScanAcc0, hc1, hc2]
    split_ifs <;> simp [scanAcc0, mScanAcc0]
  · intro h0 hlt
    have hc2 : sq ((x1 - x0) * (x1 - x0) + (y1 - y0) * (y1 - y0)) < r := by
      rw [hflip]; exact hlt
    simp only [boid_scan_cpp, boid_scan, iterUp_succ, iterUp_zero, Array.getD]
    norm_num [scanAcc0, mScanAcc0, hlt, hc2]
    split_ifs <;> simp [scanAcc0, mScanAcc0]

/-- C9 witness: a 3-4-5 pair at distance exactly 5 contributes nothing at
threshold 5, and one contribution each at threshold 6. -/
theorem c9_witness :
    (boid_scan_cpp sqW 5 2 ⟨#[0, 3], #[0, 4], #[0, 0], #[0, 0]⟩ 0).sep_total = 0
    ∧ (boid_scan sqW 7 5 2 ⟨#[0, 3], #[0, 4], #[0, 0], #[0, 0]⟩ 1).sep_count = 0
    ∧ (boid_scan_cpp sqW 6 2 ⟨#[0, 3], #[0, 4], #[0, 0], #[0, 0]⟩ 0).sep_total = 1
    ∧ (boid_scan sqW 7 6 2 ⟨#[0, 3], #[0, 4], #[0, 0], #[0, 0]⟩ 1).sep_count = 1 :=
  ⟨((c9_separation_threshold_strict sqW 0 0 3 4 0 0 0 0 5 7).1
      (by norm_num [sqW])).1,
   ((c9_separation_threshold_strict sqW 0 0 3 4 0 0 0 0 5 7).1
      (by norm_num [sqW])).2.2.2.2.2.2.1,
   ((c9_separation_threshold_strict sqW 0 0 3 4 0 0 0 0 6 7).2
      (by norm_num [sqW]) (by norm_num [sqW])).1,
   ((c9_separation_threshold_strict sqW 0 0 3 4 0 0 0 0 6 7).2
      (by norm_num [sqW]) (by norm_num [sqW])).2.2.2⟩

/-- C5: when `sq` returns the exact non-negative square root of the squared
magnitude, the speed-limiting step leaves any velocity of magnitude at most
`max_speed` unchanged and rescales any larger velocity so that its squared
magnitude equals `max_speed²` exactly, preserving direction (a positive
scalar multiple); and in the extended variant the stochastic perturbation is
added only after this limiting step. -/
theorem c5_speed_limiting_bound (sq : ℚ → ℚ) (max_speed vx vy : ℚ)
    (h0 : 0 ≤ sq (vx * vx + vy * vy))
    (hexact : sq (vx * vx + vy * vy) * sq (vx * vx + vy * vy)
      = vx * vx + vy * vy)
    (hms : 0 ≤ max_speed) :
    ((limit sq max_speed (vx, vy)).1 * (limit sq max_speed (vx, vy)).1
        + (limit sq max_speed (vx, vy)).2 * (limit sq max_speed (vx, vy)).2
      ≤ max_speed * max_speed)
    ∧ (max_speed < sq (vx * vx + vy * vy) →
        (limit sq max_speed (vx, vy)).1 * (limit sq max_speed (vx, vy)).1
          + (limit sq max_speed (vx, vy)).2 * (limit sq max_speed (vx, vy)).2
        = max_speed * max_speed)
    ∧ (0 < max_speed → ∃ c : ℚ, 0 < c
        ∧ limit sq max_speed (vx, vy) = (c * vx, c * vy))
    ∧ (∀ (pert : ℕ → ℚ × ℚ) (preds areas : Positions)
        (neighbor_radius predator_radius : ℚ) (area_radius : Array ℚ)
        (sw aw cw pw arw : ℚ) (n : ℕ) (r : Agents) (i : ℕ),
        vel_after_pert_cpp sq pert preds areas max_speed neighbor_radius
            predator_radius area_radius sw aw cw pw arw n r i
          = ((limited_vel_cpp sq preds areas max_speed neighbor_radius
                predator_radius area_radius sw aw cw pw arw n r i).1
                + (pert i).1,
             (limited_vel_cpp sq preds areas max_speed neighbor_radius
                predator_radius area_radius sw aw cw pw arw n r i).2
                + (pert i).2)) := by
  simp only [limit]
  by_cases hgt : sq ((vx, vy).1 * (vx, vy).1 + (vx, vy).2 * (vx, vy).2) > max_speed
  · have hmag0 : sq (vx * vx + vy * vy) ≠ 0 :=
      ne_of_gt (lt_of_le_of_lt hms hgt)
    have hkey : (vx / sq (vx * vx + vy * vy) * max_speed)
          * (vx / sq (vx * vx + vy * vy) * max_speed)
        + (vy / sq (vx * vx + vy * vy) * max_speed)
          * (vy / sq (vx * vx + vy * vy) * max_speed)
        = max_speed * max_speed := by
      field_simp
      linear_combination (-(max_speed * max_speed)) * hexact
    rw [if_pos hgt]
    refine ⟨le_of_eq hkey, fun _ => hkey, ?_, fun pert preds areas nr prr arR
      sw aw cw pw arw n r i => rfl⟩
    intro hms0
    refine ⟨max_speed / sq (vx * vx + vy * vy), ?_, ?_⟩
    · exact div_pos hms0 (lt_of_le_of_lt hms hgt)
    · exact Prod.ext (by ring) (by ring)
  · rw [if_neg hgt]
    push_neg at hgt
    have hle : vx * vx + vy * vy ≤ max_speed * max_speed := by
      calc vx * vx + vy * vy
          = sq (vx * vx + vy * vy) * sq (vx * vx + vy * vy) := hexact.symm
        _ ≤ max_speed * max_speed := mul_self_le_mul_self h0 hgt
    refine ⟨hle, fun hcon => absurd hcon (not_lt.mpr hgt), ?_,
      fun pert preds areas nr prr arR sw aw cw pw arw n r i => rfl⟩
    intro _
    exact ⟨1, one_pos, by simp⟩

/-- C5 witness: the theorem at `sq := sqW`, a `(3, 4)` velocity and
`max_speed = 1`, which exercises the rescaling branch. -/
theorem c5_witness :
    (0 ≤ sqW (3 * 3 + 4 * 4))
    ∧ (sqW (3 * 3 + 4 * 4) * sqW (3 * 3 + 4 * 4) = 3 * 3 + 4 * 4)
    ∧ ((limit sqW 1 (3, 4)).1 * (limit sqW 1 (3, 4)).1
        + (limit sqW 1 (3, 4)).2 * (limit sqW 1 (3, 4)).2 ≤ 1 * 1) :=
  ⟨by norm_num [sqW], by norm_num [sqW],
   (c5_speed_limiting_bound sqW 1 3 4 (by norm_num [sqW])
      (by norm_num [sqW]) (by norm_num)).1⟩
